import Mathlib

/-!
# Verification of the ButtonsTemplate debounce library

Shallow embedding of the two variants of the Arduino button-debouncing
library:

* `BT` models `buttonsTemplate.h` (the static template class
  `Buttons<NumberOfButtons>`): the per-button record `Button`, the
  read-and-clear accessors, the interrupt service routine
  `button_ISR`, and the lifecycle operations `begin` / `stop`.
* `BS` models `single/buttonsSingle.h` + `.cpp` (class `ButtonSingle`),
  whose accessors use the C logical operator `&&` where the template
  variant uses the bitwise `&`.

Machine integers are modelled as `Nat` with explicit truncation:
timestamps are `uint32_t` values, so every elapsed-time computation
`now - then` is the C unsigned 32-bit subtraction `sub32`; the `state`
field is a `uint8_t`, so clearing a flag `state &= ~FLAG` is modelled
as `state &&& (255 ^^^ FLAG)`, which agrees with C for every
`state < 256`.
-/

namespace BT

/-- `#define BUTTON_DEBOUNCE_DELAY 30` (default). -/
def BUTTON_DEBOUNCE_DELAY : Nat := 30

/-- `#define DOUBLE_CLICK_DELAY 500` (default). -/
def DOUBLE_CLICK_DELAY : Nat := 500

/-- `#define LONG_RELEASE_DELAY 1000` (default). -/
def LONG_RELEASE_DELAY : Nat := 1000

def CLEAR_FLAGS : Nat := 0
def PRESSED_FLAG : Nat := 1
def CLICKED_FLAG : Nat := 2
def SHORT_RELEASED_FLAG : Nat := 4
def LONG_RELEASED_FLAG : Nat := 8
def DOUBLE_CLICKED_FLAG : Nat := 16

/-- `2^32`, the modulus of `uint32_t` / AVR `unsigned long` arithmetic. -/
def U32 : Nat := 4294967296

/-- C unsigned 32-bit subtraction `a - b` (both operands truncated to
`uint32_t`, result reduced mod `2^32`). -/
def sub32 (a b : Nat) : Nat := (a % U32 + U32 - b % U32) % U32

/-- `struct Button`: pin number, flag byte (`uint8_t state`), and the two
`unsigned long` timestamps. -/
structure Button where
  pin : Nat
  state : Nat
  lastChangeTime : Nat
  lastClickTime : Nat
  deriving Repr, DecidableEq

/-- `down(buttonId)`: `(state & PRESSED_FLAG) != 0`. -/
def down (b : Button) : Bool := (b.state &&& PRESSED_FLAG) != 0

/-- `down(buttonId)` addressed through the `_buttons` array. -/
def downAt (bs : List Button) (buttonId : Nat) : Bool :=
  match bs.get? buttonId with
  | none => false
  | some b => down b

/-- The body of the `button_ISR` loop for one button: `readState` is
`polledDown(i)` (the raw sample), `now` is `millis()` truncated to
`uint32_t`.  Direct transcription of `buttonsTemplate.h`, lines 313-345. -/
def buttonStep (b : Button) (readState : Bool) (now : Nat) : Button :=
  let buttonState := down b
  if readState != buttonState then
    if sub32 now b.lastChangeTime > BUTTON_DEBOUNCE_DELAY then
      if readState then
        -- button has been clicked
        let st :=
          if sub32 now b.lastClickTime > DOUBLE_CLICK_DELAY then
            PRESSED_FLAG ||| CLICKED_FLAG
          else
            PRESSED_FLAG ||| DOUBLE_CLICKED_FLAG
        { b with state := st, lastClickTime := now, lastChangeTime := now }
      else
        -- button has been released
        let st0 := b.state &&& (255 ^^^ PRESSED_FLAG)
        let st :=
          if sub32 now b.lastClickTime > LONG_RELEASE_DELAY then
            st0 ||| LONG_RELEASED_FLAG
          else
            st0 ||| SHORT_RELEASED_FLAG
        { b with state := st, lastChangeTime := now }
    else
      { b with lastChangeTime := now }
  else
    b

/-- `button_ISR()`: one pass over the whole `_buttons` array at a single
`millis()` value; `digitalRead` gives the raw level of each pin and
`polledDown` is `digitalRead(pin) == LOW`. -/
def button_ISR (bs : List Button) (digitalRead : Nat → Bool) (now : Nat) :
    List Button :=
  bs.map (fun b => buttonStep b (!digitalRead b.pin) now)

/-- `clicked(buttonId)`: read `state & CLICKED_FLAG`, clear the bit,
return whether it was set (`buttonsTemplate.h`, lines 120-125). -/
def clicked (bs : List Button) (buttonId : Nat) : Bool × List Button :=
  match bs.get? buttonId with
  | none => (false, bs)
  | some b =>
      ((b.state &&& CLICKED_FLAG) != 0,
       bs.set buttonId { b with state := b.state &&& (255 ^^^ CLICKED_FLAG) })

/-- `shortReleased(buttonId)` (lines 136-141). -/
def shortReleased (bs : List Button) (buttonId : Nat) : Bool × List Button :=
  match bs.get? buttonId with
  | none => (false, bs)
  | some b =>
      ((b.state &&& SHORT_RELEASED_FLAG) != 0,
       bs.set buttonId
         { b with state := b.state &&& (255 ^^^ SHORT_RELEASED_FLAG) })

/-- `longReleased(buttonId)` (lines 153-158). -/
def longReleased (bs : List Button) (buttonId : Nat) : Bool × List Button :=
  match bs.get? buttonId with
  | none => (false, bs)
  | some b =>
      ((b.state &&& LONG_RELEASED_FLAG) != 0,
       bs.set buttonId
         { b with state := b.state &&& (255 ^^^ LONG_RELEASED_FLAG) })

/-- `doubleClicked(buttonId)` (lines 160-165). -/
def doubleClicked (bs : List Button) (buttonId : Nat) : Bool × List Button :=
  match bs.get? buttonId with
  | none => (false, bs)
  | some b =>
      ((b.state &&& DOUBLE_CLICKED_FLAG) != 0,
       bs.set buttonId
         { b with state := b.state &&& (255 ^^^ DOUBLE_CLICKED_FLAG) })

/-- The platform collaborator as observed by the class: the raw level of
each pin (`digitalRead`), the clock (`millis`), and — for stating claims
about binding — whether the platform can attach an edge interrupt to a
pin.  `attachInterrupt` returns `void` in the Arduino API, so the source
never reads `attachOk`. -/
structure Env where
  digitalRead : Nat → Bool
  millis : Nat
  attachOk : Nat → Bool

/-- The static state of `Buttons<N>`: the `_buttons` array, the `_begun`
flag, and the set of pins whose interrupts are currently attached
(the externally visible effect of `attachInterrupt`/`detachInterrupt`). -/
structure Registry where
  buttons : List Button
  begun : Bool
  bound : List Nat
  deriving Repr, DecidableEq

/-- `stop()` (lines 293-307): no-op unless `_begun`; otherwise detach the
interrupt of every button pin and clear `_begun`.  The `_buttons` array
is not touched. -/
def stop (r : Registry) : Registry :=
  if !r.begun then
    r
  else
    { r with
      bound := r.bound.filter (fun p => !(r.buttons.map Button.pin).contains p),
      begun := false }

/-- `begin(buttonPins)` (lines 255-290).  `buttonPins` is a raw pointer
(`none` models `nullptr`; a non-null pointer is just an index-to-pin
function — the C API carries no length, the count is fixed by the
template parameter `N = r.buttons.length`).  On a non-null pointer:
stop if already begun, assign pins, attach a CHANGE interrupt on every
pin (unconditionally — the API cannot report refusal), seed each
`state` from `digitalRead` and both timestamps from `millis()`, set
`_begun`, return `true`. -/
def begin (buttonPins : Option (Nat → Nat)) (env : Env) (r : Registry) :
    Bool × Registry :=
  match buttonPins with
  | none => (false, r)
  | some pins =>
      let r1 := if r.begun then stop r else r
      let n := r1.buttons.length
      let bs := (List.range n).map (fun i =>
        { pin := pins i
          state := if env.digitalRead (pins i) then CLEAR_FLAGS else PRESSED_FLAG
          lastChangeTime := env.millis
          lastClickTime := env.millis : Button })
      (true,
       { buttons := bs
         begun := true
         bound := r1.bound ++ (List.range n).map pins })

/-- Concrete one-button array used to instantiate registry-level
statements: one button on pin 2 with every flag set and distinct
timestamps. -/
def sampleButtons : List Button := [⟨2, 31, 5, 7⟩]

/-- The entry of `sampleButtons`. -/
def sampleButton : Button := ⟨2, 31, 5, 7⟩

/-- Fold of `buttonStep` over a sequence of dispatched raw samples
`(now, readState)`, in dispatch order. -/
def runFlips (b : Button) (flips : List (Nat × Bool)) : Button :=
  flips.foldl (fun b p => buttonStep b p.2 p.1) b

/-- Every sample of the sequence arrives strictly within
`BUTTON_DEBOUNCE_DELAY` of the button's `lastChangeTime` as it stands
when that sample is dispatched. -/
def withinWindow (b : Button) : List (Nat × Bool) → Bool
  | [] => true
  | (t, r) :: rest =>
      decide (sub32 t b.lastChangeTime < BUTTON_DEBOUNCE_DELAY) &&
        withinWindow (buttonStep b r t) rest

/-- The time of the last sample of the sequence whose level differs from
the confirmed level `c`, or the initial `t0` when there is none. -/
def lastRejectTime (c : Bool) : Nat → List (Nat × Bool) → Nat
  | t0, [] => t0
  | t0, (t, r) :: rest => lastRejectTime c (if r = c then t0 else t) rest

/-- `button_ISR` of `buttonsTemplate.h` with ideal (unbounded-integer)
timestamps: identical to `buttonStep` except that every elapsed-time
comparison uses plain `Nat` subtraction of the true times instead of the
wrapped `uint32_t` subtraction `sub32`.  Used only to compare against
`buttonStep` in the wrap-around claim. -/
def buttonStepExact (b : Button) (readState : Bool) (now : Nat) : Button :=
  let buttonState := down b
  if readState != buttonState then
    if now - b.lastChangeTime > BUTTON_DEBOUNCE_DELAY then
      if readState then
        let st :=
          if now - b.lastClickTime > DOUBLE_CLICK_DELAY then
            PRESSED_FLAG ||| CLICKED_FLAG
          else
            PRESSED_FLAG ||| DOUBLE_CLICKED_FLAG
        { b with state := st, lastClickTime := now, lastChangeTime := now }
      else
        let st0 := b.state &&& (255 ^^^ PRESSED_FLAG)
        let st :=
          if now - b.lastClickTime > LONG_RELEASE_DELAY then
            st0 ||| LONG_RELEASED_FLAG
          else
            st0 ||| SHORT_RELEASED_FLAG
        { b with state := st, lastChangeTime := now }
    else
      { b with lastChangeTime := now }
  else
    b

end BT

namespace BS

/-- `static constexpr unsigned long DEBOUNCE_DELAY = 50`. -/
def DEBOUNCE_DELAY : Nat := 50

/-- `static constexpr unsigned long DOUBLE_CLICK_DELAY = 500`. -/
def DOUBLE_CLICK_DELAY : Nat := 500

/-- `static constexpr unsigned long LONG_CLICK_DELAY = 2000`. -/
def LONG_CLICK_DELAY : Nat := 2000

def CLEAR_FLAGS : Nat := 0
def PRESSED_FLAG : Nat := 1
def CLICKED_FLAG : Nat := 2
def RELEASED_FLAG : Nat := 4
def LONG_CLICKED_FLAG : Nat := 8
def DOUBLE_CLICKED_FLAG : Nat := 16

/-- The C logical AND of two integers, `a && b`: true iff both are
nonzero.  The accessors of `buttonsSingle.h` apply it where the template
variant applies the bitwise `&`. -/
def cAnd (a b : Nat) : Bool := (a != 0) && (b != 0)

/-- The mutable fields of `class ButtonSingle`. -/
structure ButtonSingle where
  pin : Nat
  state : Nat
  lastChangeTime : Nat
  lastClickTime : Nat
  deriving Repr, DecidableEq

/-- `clicked()`: `bool bClicked = state && CLICKED_FLAG;
state &= ~CLICKED_FLAG; return bClicked;` (`buttonsSingle.h`). -/
def clicked (b : ButtonSingle) : Bool × ButtonSingle :=
  (cAnd b.state CLICKED_FLAG,
   { b with state := b.state &&& (255 ^^^ CLICKED_FLAG) })

/-- `released()`: same shape with `RELEASED_FLAG`. -/
def released (b : ButtonSingle) : Bool × ButtonSingle :=
  (cAnd b.state RELEASED_FLAG,
   { b with state := b.state &&& (255 ^^^ RELEASED_FLAG) })

/-- `longClicked()`: same shape with `LONG_CLICKED_FLAG`. -/
def longClicked (b : ButtonSingle) : Bool × ButtonSingle :=
  (cAnd b.state LONG_CLICKED_FLAG,
   { b with state := b.state &&& (255 ^^^ LONG_CLICKED_FLAG) })

/-- `doubleClicked()`: same shape with `DOUBLE_CLICKED_FLAG`. -/
def doubleClicked (b : ButtonSingle) : Bool × ButtonSingle :=
  (cAnd b.state DOUBLE_CLICKED_FLAG,
   { b with state := b.state &&& (255 ^^^ DOUBLE_CLICKED_FLAG) })

/-- `down()`: `return state && PRESSED_FLAG;` — non-consuming. -/
def down (b : ButtonSingle) : Bool := cAnd b.state PRESSED_FLAG

/-- `button_Handler()` (`buttonsSingle.cpp`, lines 26-57).
`digitalReadPin` is the raw `digitalRead(pin)` sample; the guard
compares `readState` with `state && PRESSED_FLAG`. -/
def button_Handler (b : ButtonSingle) (digitalReadPin : Bool) (now : Nat) :
    ButtonSingle :=
  let readState := !digitalReadPin
  if readState != cAnd b.state PRESSED_FLAG then
    if BT.sub32 now b.lastChangeTime > DEBOUNCE_DELAY then
      if readState then
        -- state = CLEAR_FLAGS; state = PRESSED_FLAG | CLICKED_FLAG;
        let st := PRESSED_FLAG ||| CLICKED_FLAG
        let st :=
          if BT.sub32 now b.lastClickTime > DOUBLE_CLICK_DELAY then
            st ||| DOUBLE_CLICKED_FLAG
          else
            st
        { b with state := st, lastClickTime := now, lastChangeTime := now }
      else
        let st := (b.state &&& (255 ^^^ PRESSED_FLAG)) ||| RELEASED_FLAG
        let st :=
          if BT.sub32 now b.lastClickTime > LONG_CLICK_DELAY then
            st ||| LONG_CLICKED_FLAG
          else
            st
        { b with state := st, lastChangeTime := now }
    else
      { b with lastChangeTime := now }
  else
    b

end BS

namespace BTOld

/-- `static constexpr unsigned long DEBOUNCE_DELAY = 50`
(`buttonsTemplateOld.h`, line 266). -/
def DEBOUNCE_DELAY : Nat := 50

/-- `struct Button` of `buttonsTemplateOld.h`: pin number, confirmed
level, the change and long-click flags, and the single `unsigned long`
timestamp. -/
structure Button where
  buttonPin : Nat
  currentState : Bool
  changeFlag : Bool
  longClickFlag : Bool
  lastChangeTime : Nat
  deriving Repr, DecidableEq

/-- The body of the old variant's `button_ISR` loop for one button
(`buttonsTemplateOld.h`, lines 352-369): `readState` is the inverted raw
sample, `now` the `millis()` value.  The debounce test is
`millis() > lastChangeTime + DEBOUNCE_DELAY` — an add-then-compare on
`uint32_t` values (the sum reduced mod `2^32`, then plain `>`), NOT an
unsigned subtraction of timestamps. -/
def buttonStep (b : Button) (readState : Bool) (now : Nat) : Button :=
  if readState != b.currentState then
    if now % BT.U32 > (b.lastChangeTime + DEBOUNCE_DELAY) % BT.U32 then
      { b with currentState := readState, changeFlag := true,
               longClickFlag := true, lastChangeTime := now % BT.U32 }
    else
      { b with lastChangeTime := now % BT.U32 }
  else b

end BTOld

/-! ## Shared helper lemmas -/

namespace BT

/-- Reading the entry just written by `List.set` at the same index. -/
lemma get?_set_self {α : Type} :
    ∀ (l : List α) (i : Nat) (a b : α),
      l.get? i = some b → (l.set i a).get? i = some a := by
  intro l
  induction l with
  | nil => intro i a b h; simp at h
  | cons x xs ih =>
      intro i a b h
      cases i with
      | zero => simp
      | succ j =>
          simp only [List.set_cons_succ, List.get?_cons_succ] at h ⊢
          exact ih j a b h

/-- A raw sample equal to the confirmed level leaves the button
unchanged. -/
lemma buttonStep_noop (b : Button) (now : Nat) :
    buttonStep b (down b) now = b := by
  simp [buttonStep]

/-- A pending transition inside the debounce window only refreshes
`lastChangeTime`. -/
lemma buttonStep_reject (b : Button) (r : Bool) (now : Nat)
    (hr : r ≠ down b)
    (hw : ¬ sub32 now b.lastChangeTime > BUTTON_DEBOUNCE_DELAY) :
    buttonStep b r now = { b with lastChangeTime := now } := by
  simp [buttonStep, hw, bne_iff_ne, hr]

set_option maxRecDepth 8000 in
/-- Facts about clearing one flag bit of a byte: the accessor masks
`253 = ~CLICKED`, `251 = ~SHORT_RELEASED`, `247 = ~LONG_RELEASED` and
`239 = ~DOUBLE_CLICKED` clear exactly their own bit and keep every other
flag bit and the pressed bit. -/
lemma byteClearFacts :
    ∀ s, s < 256 →
      ((s &&& 253) &&& 2 = 0 ∧ (s &&& 253) &&& 1 = s &&& 1 ∧
       (s &&& 253) &&& 4 = s &&& 4 ∧ (s &&& 253) &&& 8 = s &&& 8 ∧
       (s &&& 253) &&& 16 = s &&& 16) ∧
      ((s &&& 251) &&& 4 = 0 ∧ (s &&& 251) &&& 1 = s &&& 1 ∧
       (s &&& 251) &&& 2 = s &&& 2 ∧ (s &&& 251) &&& 8 = s &&& 8 ∧
       (s &&& 251) &&& 16 = s &&& 16) ∧
      ((s &&& 247) &&& 8 = 0 ∧ (s &&& 247) &&& 1 = s &&& 1 ∧
       (s &&& 247) &&& 2 = s &&& 2 ∧ (s &&& 247) &&& 4 = s &&& 4 ∧
       (s &&& 247) &&& 16 = s &&& 16) ∧
      ((s &&& 239) &&& 16 = 0 ∧ (s &&& 239) &&& 1 = s &&& 1 ∧
       (s &&& 239) &&& 2 = s &&& 2 ∧ (s &&& 239) &&& 4 = s &&& 4 ∧
       (s &&& 239) &&& 8 = s &&& 8) := by
  decide

set_option maxRecDepth 8000 in
/-- Facts about the release update `(s &&& 254) ||| f` for
`f ∈ {SHORT_RELEASED, LONG_RELEASED}`: the clicked and double-clicked
bits are preserved exactly, previously set release bits stay set, and
the pressed bit is cleared. -/
lemma releaseByteFacts :
    ∀ s, s < 256 →
      (((s &&& 254) ||| 4) &&& 2 = s &&& 2) ∧
      (((s &&& 254) ||| 8) &&& 2 = s &&& 2) ∧
      (((s &&& 254) ||| 4) &&& 16 = s &&& 16) ∧
      (((s &&& 254) ||| 8) &&& 16 = s &&& 16) ∧
      (s &&& 4 ≠ 0 → ((s &&& 254) ||| 4) &&& 4 ≠ 0) ∧
      (s &&& 4 ≠ 0 → ((s &&& 254) ||| 8) &&& 4 ≠ 0) ∧
      (s &&& 8 ≠ 0 → ((s &&& 254) ||| 4) &&& 8 ≠ 0) ∧
      (s &&& 8 ≠ 0 → ((s &&& 254) ||| 8) &&& 8 ≠ 0) ∧
      (((s &&& 254) ||| 4) &&& 1 = 0) ∧
      (((s &&& 254) ||| 8) &&& 1 = 0) := by
  decide

set_option maxRecDepth 8000 in
/-- Byte-level facts behind the read-and-clear accessors: clearing one
flag with `state &= ~FLAG` makes that flag read false, and every other
flag (and the pressed bit) reads exactly as before. -/
lemma takeByteFacts :
    ∀ s, s < 256 →
      ((s &&& (255 ^^^ CLICKED_FLAG)) &&& CLICKED_FLAG != 0) = false
      ∧ ((s &&& (255 ^^^ CLICKED_FLAG)) &&& SHORT_RELEASED_FLAG != 0)
          = ((s &&& SHORT_RELEASED_FLAG) != 0)
      ∧ ((s &&& (255 ^^^ CLICKED_FLAG)) &&& LONG_RELEASED_FLAG != 0)
          = ((s &&& LONG_RELEASED_FLAG) != 0)
      ∧ ((s &&& (255 ^^^ CLICKED_FLAG)) &&& DOUBLE_CLICKED_FLAG != 0)
          = ((s &&& DOUBLE_CLICKED_FLAG) != 0)
      ∧ ((s &&& (255 ^^^ CLICKED_FLAG)) &&& PRESSED_FLAG != 0)
          = ((s &&& PRESSED_FLAG) != 0)
      ∧ ((s &&& (255 ^^^ SHORT_RELEASED_FLAG)) &&& SHORT_RELEASED_FLAG != 0) = false
      ∧ ((s &&& (255 ^^^ SHORT_RELEASED_FLAG)) &&& CLICKED_FLAG != 0)
          = ((s &&& CLICKED_FLAG) != 0)
      ∧ ((s &&& (255 ^^^ SHORT_RELEASED_FLAG)) &&& LONG_RELEASED_FLAG != 0)
          = ((s &&& LONG_RELEASED_FLAG) != 0)
      ∧ ((s &&& (255 ^^^ SHORT_RELEASED_FLAG)) &&& DOUBLE_CLICKED_FLAG != 0)
          = ((s &&& DOUBLE_CLICKED_FLAG) != 0)
      ∧ ((s &&& (255 ^^^ SHORT_RELEASED_FLAG)) &&& PRESSED_FLAG != 0)
          = ((s &&& PRESSED_FLAG) != 0)
      ∧ ((s &&& (255 ^^^ LONG_RELEASED_FLAG)) &&& LONG_RELEASED_FLAG != 0) = false
      ∧ ((s &&& (255 ^^^ LONG_RELEASED_FLAG)) &&& CLICKED_FLAG != 0)
          = ((s &&& CLICKED_FLAG) != 0)
      ∧ ((s &&& (255 ^^^ LONG_RELEASED_FLAG)) &&& SHORT_RELEASED_FLAG != 0)
          = ((s &&& SHORT_RELEASED_FLAG) != 0)
      ∧ ((s &&& (255 ^^^ LONG_RELEASED_FLAG)) &&& DOUBLE_CLICKED_FLAG != 0)
          = ((s &&& DOUBLE_CLICKED_FLAG) != 0)
      ∧ ((s &&& (255 ^^^ LONG_RELEASED_FLAG)) &&& PRESSED_FLAG != 0)
          = ((s &&& PRESSED_FLAG) != 0)
      ∧ ((s &&& (255 ^^^ DOUBLE_CLICKED_FLAG)) &&& DOUBLE_CLICKED_FLAG != 0) = false
      ∧ ((s &&& (255 ^^^ DOUBLE_CLICKED_FLAG)) &&& CLICKED_FLAG != 0)
          = ((s &&& CLICKED_FLAG) != 0)
      ∧ ((s &&& (255 ^^^ DOUBLE_CLICKED_FLAG)) &&& SHORT_RELEASED_FLAG != 0)
          = ((s &&& SHORT_RELEASED_FLAG) != 0)
      ∧ ((s &&& (255 ^^^ DOUBLE_CLICKED_FLAG)) &&& LONG_RELEASED_FLAG != 0)
          = ((s &&& LONG_RELEASED_FLAG) != 0)
      ∧ ((s &&& (255 ^^^ DOUBLE_CLICKED_FLAG)) &&& PRESSED_FLAG != 0)
          = ((s &&& PRESSED_FLAG) != 0) := by
  decide

end BT

/-! ## Claim C1 -/

/-- Claim C1 counterexample.  At the button record
`⟨pin 2, state 0 (released, no flags), lastChangeTime 0,
lastClickTime 100⟩` and `now = 200` every hypothesis of the claim holds:
the raw sample is active and differs from `confirmedState`, the debounce
window has passed (`200 - 0 > 30`), and the double-click window is met
(`200 - 100 ≤ 500`).  Yet the accepted press leaves the `clicked` flag
clear (the state byte becomes `PRESSED|DOUBLE_CLICKED = 17`), refuting
the claim that an accepted press always sets `clicked`. -/
theorem C1_counterexample :
    BT.down ⟨2, 0, 0, 100⟩ = false
    ∧ BT.sub32 200 0 > BT.BUTTON_DEBOUNCE_DELAY
    ∧ BT.sub32 200 100 ≤ BT.DOUBLE_CLICK_DELAY
    ∧ (BT.buttonStep ⟨2, 0, 0, 100⟩ true 200).state &&& BT.CLICKED_FLAG = 0
    ∧ (BT.buttonStep ⟨2, 0, 0, 100⟩ true 200).state = 17 := by
  decide

/-- Claim C1 (amended): whenever `button_ISR` accepts a press transition
(raw sample active, differing from `confirmedState`, and
`now - lastChangeTime > DEBOUNCE_WINDOW`), it sets `confirmedState` to
true, sets `lastClickTime = now`, sets `doubleClicked` if and only if
`now - lastClickTime ≤ DOUBLE_CLICK_WINDOW`, and sets `clicked` if and
only if `now - lastClickTime > DOUBLE_CLICK_WINDOW` — exactly one of the
two flags, never both. -/
theorem C1_press_classification (b : BT.Button) (now : Nat)
    (hdown : BT.down b = false)
    (hdeb : BT.sub32 now b.lastChangeTime > BT.BUTTON_DEBOUNCE_DELAY) :
    BT.down (BT.buttonStep b true now) = true
    ∧ (BT.buttonStep b true now).lastClickTime = now
    ∧ (BT.buttonStep b true now).lastChangeTime = now
    ∧ ((BT.buttonStep b true now).state &&& BT.DOUBLE_CLICKED_FLAG ≠ 0
        ↔ BT.sub32 now b.lastClickTime ≤ BT.DOUBLE_CLICK_DELAY)
    ∧ ((BT.buttonStep b true now).state &&& BT.CLICKED_FLAG ≠ 0
        ↔ BT.sub32 now b.lastClickTime > BT.DOUBLE_CLICK_DELAY) := by
  by_cases hdc : BT.sub32 now b.lastClickTime > BT.DOUBLE_CLICK_DELAY
  · have hstep : BT.buttonStep b true now =
        { b with state := BT.PRESSED_FLAG ||| BT.CLICKED_FLAG,
                 lastClickTime := now, lastChangeTime := now } := by
      simp [BT.buttonStep, hdown, hdeb, hdc]
    rw [hstep]
    refine ⟨by simp [BT.down, BT.PRESSED_FLAG, BT.CLICKED_FLAG], rfl, rfl, ?_, ?_⟩
    · simp only [BT.PRESSED_FLAG, BT.CLICKED_FLAG, BT.DOUBLE_CLICKED_FLAG]
      constructor
      · intro h; exact absurd rfl h
      · intro h; exact absurd hdc (Nat.not_lt.mpr h)
    · simp only [BT.PRESSED_FLAG, BT.CLICKED_FLAG]
      constructor
      · intro _; exact hdc
      · intro _; decide
  · have hstep : BT.buttonStep b true now =
        { b with state := BT.PRESSED_FLAG ||| BT.DOUBLE_CLICKED_FLAG,
                 lastClickTime := now, lastChangeTime := now } := by
      simp [BT.buttonStep, hdown, hdeb, hdc]
    rw [hstep]
    refine ⟨by simp [BT.down, BT.PRESSED_FLAG, BT.DOUBLE_CLICKED_FLAG], rfl, rfl, ?_, ?_⟩
    · simp only [BT.PRESSED_FLAG, BT.DOUBLE_CLICKED_FLAG]
      constructor
      · intro _; exact Nat.not_lt.mp hdc
      · intro _; decide
    · simp only [BT.PRESSED_FLAG, BT.DOUBLE_CLICKED_FLAG, BT.CLICKED_FLAG]
      constructor
      · intro h; exact absurd rfl h
      · intro h; exact absurd h hdc

/-- Witness for `C1_press_classification` at the concrete record
`⟨2, 0, 0, 100⟩` and `now = 200`. -/
theorem C1_press_classification_witness :
    BT.down (BT.buttonStep ⟨2, 0, 0, 100⟩ true 200) = true
    ∧ (BT.buttonStep ⟨2, 0, 0, 100⟩ true 200).lastClickTime = 200
    ∧ (BT.buttonStep ⟨2, 0, 0, 100⟩ true 200).lastChangeTime = 200
    ∧ ((BT.buttonStep ⟨2, 0, 0, 100⟩ true 200).state &&& BT.DOUBLE_CLICKED_FLAG ≠ 0
        ↔ BT.sub32 200 100 ≤ BT.DOUBLE_CLICK_DELAY)
    ∧ ((BT.buttonStep ⟨2, 0, 0, 100⟩ true 200).state &&& BT.CLICKED_FLAG ≠ 0
        ↔ BT.sub32 200 100 > BT.DOUBLE_CLICK_DELAY) :=
  C1_press_classification ⟨2, 0, 0, 100⟩ 200 (by decide) (by decide)

/-! ## Claim C2 -/

/-- Claim C2 counterexample.  The record `⟨2, 4, 0, 0⟩` is released with
an unread `shortReleased` flag; at `now = 600` a press is accepted
(`600 - 0 > 30`).  The press assigns the whole state byte
(`state = PRESSED|CLICKED`), wiping the unread `shortReleased` flag —
refuting the claim that an accepted press leaves unread flags of other
kinds set. -/
theorem C2_counterexample :
    (⟨2, 4, 0, 0⟩ : BT.Button).state &&& BT.SHORT_RELEASED_FLAG ≠ 0
    ∧ BT.down ⟨2, 4, 0, 0⟩ = false
    ∧ BT.sub32 600 0 > BT.BUTTON_DEBOUNCE_DELAY
    ∧ (BT.buttonStep ⟨2, 4, 0, 0⟩ true 600).state &&& BT.SHORT_RELEASED_FLAG = 0 := by
  decide

/-- Claim C2 (amended): accepted release transitions accumulate flags by
logical OR — they preserve the unread `clicked` and `doubleClicked` bits
exactly, keep any already-set release bit, and clear only the pressed
bit — but an accepted press does NOT accumulate: it overwrites the whole
flag byte, so it clears any unread `shortReleased`/`longReleased` flags
(the press path assigns `state = PRESSED|CLICKED` or
`state = PRESSED|DOUBLE_CLICKED`). -/
theorem C2_flag_accumulation (b : BT.Button) (now : Nat)
    (hstate : b.state < 256)
    (hdeb : BT.sub32 now b.lastChangeTime > BT.BUTTON_DEBOUNCE_DELAY) :
    (BT.down b = true →
      (BT.buttonStep b false now).state &&& BT.CLICKED_FLAG
          = b.state &&& BT.CLICKED_FLAG
      ∧ (BT.buttonStep b false now).state &&& BT.DOUBLE_CLICKED_FLAG
          = b.state &&& BT.DOUBLE_CLICKED_FLAG
      ∧ (b.state &&& BT.SHORT_RELEASED_FLAG ≠ 0 →
          (BT.buttonStep b false now).state &&& BT.SHORT_RELEASED_FLAG ≠ 0)
      ∧ (b.state &&& BT.LONG_RELEASED_FLAG ≠ 0 →
          (BT.buttonStep b false now).state &&& BT.LONG_RELEASED_FLAG ≠ 0))
    ∧ (BT.down b = false →
      (BT.buttonStep b true now).state &&& BT.SHORT_RELEASED_FLAG = 0
      ∧ (BT.buttonStep b true now).state &&& BT.LONG_RELEASED_FLAG = 0) := by
  obtain ⟨_, ⟨r42, r82, r416, r816, r44, r84, r48, r88, _, _⟩⟩ :=
    And.intro trivial (BT.releaseByteFacts b.state hstate)
  constructor
  · intro hd
    by_cases hl : BT.sub32 now b.lastClickTime > BT.LONG_RELEASE_DELAY
    · have hstep : BT.buttonStep b false now =
          { b with state := (b.state &&& 254) ||| 8, lastChangeTime := now } := by
        simp [BT.buttonStep, hd, hdeb, hl, BT.PRESSED_FLAG, BT.LONG_RELEASED_FLAG]
      rw [hstep]
      exact ⟨r82, r816, fun h => r84 h, fun h => r88 h⟩
    · have hstep : BT.buttonStep b false now =
          { b with state := (b.state &&& 254) ||| 4, lastChangeTime := now } := by
        simp [BT.buttonStep, hd, hdeb, hl, BT.PRESSED_FLAG, BT.SHORT_RELEASED_FLAG]
      rw [hstep]
      exact ⟨r42, r416, fun h => r44 h, fun h => r48 h⟩
  · intro hd
    by_cases hdc : BT.sub32 now b.lastClickTime > BT.DOUBLE_CLICK_DELAY
    · have hstep : BT.buttonStep b true now =
          { b with state := BT.PRESSED_FLAG ||| BT.CLICKED_FLAG,
                   lastClickTime := now, lastChangeTime := now } := by
        simp [BT.buttonStep, hd, hdeb, hdc]
      rw [hstep]
      exact ⟨(by decide :
          (BT.PRESSED_FLAG ||| BT.CLICKED_FLAG) &&& BT.SHORT_RELEASED_FLAG = 0),
        (by decide :
          (BT.PRESSED_FLAG ||| BT.CLICKED_FLAG) &&& BT.LONG_RELEASED_FLAG = 0)⟩
    · have hstep : BT.buttonStep b true now =
          { b with state := BT.PRESSED_FLAG ||| BT.DOUBLE_CLICKED_FLAG,
                   lastClickTime := now, lastChangeTime := now } := by
        simp [BT.buttonStep, hd, hdeb, hdc]
      rw [hstep]
      exact ⟨(by decide :
          (BT.PRESSED_FLAG ||| BT.DOUBLE_CLICKED_FLAG) &&& BT.SHORT_RELEASED_FLAG = 0),
        (by decide :
          (BT.PRESSED_FLAG ||| BT.DOUBLE_CLICKED_FLAG) &&& BT.LONG_RELEASED_FLAG = 0)⟩

/-- Witness for `C2_flag_accumulation` at the pressed record
`⟨2, 7, 0, 0⟩` (pressed, with unread `clicked` and `shortReleased`) and
`now = 600`. -/
theorem C2_flag_accumulation_witness :
    ((⟨2, 7, 0, 0⟩ : BT.Button).state < 256)
    ∧ (BT.down ⟨2, 7, 0, 0⟩ = true →
      (BT.buttonStep ⟨2, 7, 0, 0⟩ false 600).state &&& BT.CLICKED_FLAG
          = (⟨2, 7, 0, 0⟩ : BT.Button).state &&& BT.CLICKED_FLAG
      ∧ (BT.buttonStep ⟨2, 7, 0, 0⟩ false 600).state &&& BT.DOUBLE_CLICKED_FLAG
          = (⟨2, 7, 0, 0⟩ : BT.Button).state &&& BT.DOUBLE_CLICKED_FLAG
      ∧ ((⟨2, 7, 0, 0⟩ : BT.Button).state &&& BT.SHORT_RELEASED_FLAG ≠ 0 →
          (BT.buttonStep ⟨2, 7, 0, 0⟩ false 600).state &&& BT.SHORT_RELEASED_FLAG ≠ 0)
      ∧ ((⟨2, 7, 0, 0⟩ : BT.Button).state &&& BT.LONG_RELEASED_FLAG ≠ 0 →
          (BT.buttonStep ⟨2, 7, 0, 0⟩ false 600).state &&& BT.LONG_RELEASED_FLAG ≠ 0))
    ∧ (BT.down ⟨2, 7, 0, 0⟩ = false →
      (BT.buttonStep ⟨2, 7, 0, 0⟩ true 600).state &&& BT.SHORT_RELEASED_FLAG = 0
      ∧ (BT.buttonStep ⟨2, 7, 0, 0⟩ true 600).state &&& BT.LONG_RELEASED_FLAG = 0) :=
  ⟨by decide, C2_flag_accumulation ⟨2, 7, 0, 0⟩ 600 (by decide) (by decide)⟩

/-! ## Claim C3 -/

/-- Claim C3 counterexample.  Starting from the released record
`⟨2, 0, 0, 0⟩`, the raw level flips to pressed at `t = 10` and back to
released at `t = 20`; every flip is strictly within the 30-unit debounce
window of the previous change.  The claim says `lastChangeTime` advances
to the time of the last flip (20), but the second flip restores the
confirmed level, so the routine skips it entirely and `lastChangeTime`
stays at 10. -/
theorem C3_counterexample :
    BT.withinWindow ⟨2, 0, 0, 0⟩ [(10, true), (20, false)] = true
    ∧ (BT.runFlips ⟨2, 0, 0, 0⟩ [(10, true), (20, false)]).lastChangeTime = 10
    ∧ (BT.runFlips ⟨2, 0, 0, 0⟩ [(10, true), (20, false)]).lastChangeTime ≠ 20 := by
  decide

/-- Claim C3 (amended): for every sequence of raw samples dispatched
each strictly within `DEBOUNCE_WINDOW` of the button's current
`lastChangeTime`, the state byte (hence `confirmedState` and every
flag) and `lastClickTime` never change; a rejected pending transition
(raw differing from confirmed) refreshes only `lastChangeTime` —
re-arming the window on every bounce — while a sample that restores the
confirmed level is skipped, so `lastChangeTime` ends at the time of the
last differing sample (or stays put if there is none). -/
theorem C3_debounce_suppression (b : BT.Button) (flips : List (Nat × Bool))
    (h : BT.withinWindow b flips = true) :
    BT.runFlips b flips =
      { b with lastChangeTime :=
          BT.lastRejectTime (BT.down b) b.lastChangeTime flips } := by
  induction flips generalizing b with
  | nil => rfl
  | cons p rest ih =>
      obtain ⟨t, r⟩ := p
      rw [BT.withinWindow, Bool.and_eq_true, decide_eq_true_eq] at h
      obtain ⟨hlt, hrest⟩ := h
      have hlhs : BT.runFlips b ((t, r) :: rest) =
          BT.runFlips (BT.buttonStep b r t) rest := rfl
      by_cases hr : r = BT.down b
      · have hnoop : BT.buttonStep b r t = b := by
          rw [hr]; exact BT.buttonStep_noop b t
        rw [hlhs, hnoop]
        rw [hnoop] at hrest
        rw [ih b hrest]
        rw [BT.lastRejectTime, if_pos hr]
      · have hrej : BT.buttonStep b r t = { b with lastChangeTime := t } :=
          BT.buttonStep_reject b r t hr (by omega)
        rw [hlhs, hrej]
        rw [hrej] at hrest
        rw [ih { b with lastChangeTime := t } hrest]
        rw [BT.lastRejectTime, if_neg hr]
        rfl

/-- Witness for `C3_debounce_suppression` on a concrete bounce burst:
three within-window samples (press, release, press) starting from a
released record. -/
theorem C3_debounce_suppression_witness :
    BT.withinWindow ⟨2, 0, 100, 50⟩ [(110, true), (120, false), (130, true)] = true
    ∧ BT.runFlips ⟨2, 0, 100, 50⟩ [(110, true), (120, false), (130, true)] =
        { pin := 2, state := 0,
          lastChangeTime :=
            BT.lastRejectTime (BT.down ⟨2, 0, 100, 50⟩) 100
              [(110, true), (120, false), (130, true)],
          lastClickTime := 50 } :=
  ⟨by decide,
   C3_debounce_suppression ⟨2, 0, 100, 50⟩
     [(110, true), (120, false), (130, true)] (by decide)⟩

/-! ## Claim C4 -/

/-- Claim C4 counterexample.  A press is accepted at `t = 40` (so
`lastClickTime` becomes 40) and the release is accepted at
`t = 1040`: the holding time is exactly `LONG_PRESS_WINDOW = 1000`,
yet the release is classified as SHORT (`shortReleased` set,
`longReleased` clear) — the claim says exactly-window classifies as
long. -/
theorem C4_counterexample :
    (BT.buttonStep ⟨2, 0, 0, 0⟩ true 40).lastClickTime = 40
    ∧ BT.sub32 1040 40 = BT.LONG_RELEASE_DELAY
    ∧ (BT.buttonStep (BT.buttonStep ⟨2, 0, 0, 0⟩ true 40) false 1040).state
        &&& BT.LONG_RELEASED_FLAG = 0
    ∧ (BT.buttonStep (BT.buttonStep ⟨2, 0, 0, 0⟩ true 40) false 1040).state
        &&& BT.SHORT_RELEASED_FLAG ≠ 0 := by
  decide

/-- Claim C4 (amended): for a press accepted at `t` and its release
accepted at `tp`, the release is classified LONG exactly when
`tp - t > LONG_PRESS_WINDOW` and SHORT exactly when
`tp - t ≤ LONG_PRESS_WINDOW` (so exactly `LONG_PRESS_WINDOW` is short,
`LONG_PRESS_WINDOW + 1` is long, `LONG_PRESS_WINDOW - 1` is short);
exactly one of the two flags results from the release, the holding time
being measured from the accepted press time (`lastClickTime = t`). -/
theorem C4_long_short_boundary (b : BT.Button) (t tp : Nat)
    (hdown : BT.down b = false)
    (hdeb1 : BT.sub32 t b.lastChangeTime > BT.BUTTON_DEBOUNCE_DELAY)
    (hdeb2 : BT.sub32 tp t > BT.BUTTON_DEBOUNCE_DELAY) :
    BT.down (BT.buttonStep (BT.buttonStep b true t) false tp) = false
    ∧ ((BT.buttonStep (BT.buttonStep b true t) false tp).state
          &&& BT.LONG_RELEASED_FLAG ≠ 0
        ↔ BT.sub32 tp t > BT.LONG_RELEASE_DELAY)
    ∧ ((BT.buttonStep (BT.buttonStep b true t) false tp).state
          &&& BT.SHORT_RELEASED_FLAG ≠ 0
        ↔ BT.sub32 tp t ≤ BT.LONG_RELEASE_DELAY)
    ∧ ¬((BT.buttonStep (BT.buttonStep b true t) false tp).state
          &&& BT.LONG_RELEASED_FLAG ≠ 0
        ∧ (BT.buttonStep (BT.buttonStep b true t) false tp).state
          &&& BT.SHORT_RELEASED_FLAG ≠ 0) := by
  by_cases hdc : BT.sub32 t b.lastClickTime > BT.DOUBLE_CLICK_DELAY
  · have hpress : BT.buttonStep b true t =
        { b with state := BT.PRESSED_FLAG ||| BT.CLICKED_FLAG,
                 lastClickTime := t, lastChangeTime := t } := by
      simp [BT.buttonStep, hdown, hdeb1, hdc]
    rw [hpress]
    by_cases hl : BT.sub32 tp t > BT.LONG_RELEASE_DELAY
    · have hstep2 : BT.buttonStep
          { b with state := BT.PRESSED_FLAG ||| BT.CLICKED_FLAG,
                   lastClickTime := t, lastChangeTime := t } false tp =
          { b with state := 10, lastClickTime := t, lastChangeTime := tp } := by
        simp [BT.buttonStep, BT.down, hdeb2, hl, BT.PRESSED_FLAG, BT.CLICKED_FLAG,
          BT.LONG_RELEASED_FLAG]
        all_goals decide
      rw [hstep2]
      exact ⟨(by decide : (((10:Nat) &&& BT.PRESSED_FLAG) != 0) = false),
        ⟨fun _ => hl, fun _ => (by decide : (10:Nat) &&& BT.LONG_RELEASED_FLAG ≠ 0)⟩,
        ⟨fun h => absurd (by decide : (10:Nat) &&& BT.SHORT_RELEASED_FLAG = 0) h,
         fun h => absurd hl (by omega)⟩,
        fun hc => hc.2 (by decide : (10:Nat) &&& BT.SHORT_RELEASED_FLAG = 0)⟩
    · have hstep2 : BT.buttonStep
          { b with state := BT.PRESSED_FLAG ||| BT.CLICKED_FLAG,
                   lastClickTime := t, lastChangeTime := t } false tp =
          { b with state := 6, lastClickTime := t, lastChangeTime := tp } := by
        simp [BT.buttonStep, BT.down, hdeb2, hl, BT.PRESSED_FLAG, BT.CLICKED_FLAG,
          BT.SHORT_RELEASED_FLAG]
        all_goals decide
      rw [hstep2]
      exact ⟨(by decide : (((6:Nat) &&& BT.PRESSED_FLAG) != 0) = false),
        ⟨fun h => absurd (by decide : (6:Nat) &&& BT.LONG_RELEASED_FLAG = 0) h,
         fun h => absurd h hl⟩,
        ⟨fun _ => by omega, fun _ => (by decide : (6:Nat) &&& BT.SHORT_RELEASED_FLAG ≠ 0)⟩,
        fun hc => hc.1 (by decide : (6:Nat) &&& BT.LONG_RELEASED_FLAG = 0)⟩
  · have hpress : BT.buttonStep b true t =
        { b with state := BT.PRESSED_FLAG ||| BT.DOUBLE_CLICKED_FLAG,
                 lastClickTime := t, lastChangeTime := t } := by
      simp [BT.buttonStep, hdown, hdeb1, hdc]
    rw [hpress]
    by_cases hl : BT.sub32 tp t > BT.LONG_RELEASE_DELAY
    · have hstep2 : BT.buttonStep
          { b with state := BT.PRESSED_FLAG ||| BT.DOUBLE_CLICKED_FLAG,
                   lastClickTime := t, lastChangeTime := t } false tp =
          { b with state := 24, lastClickTime := t, lastChangeTime := tp } := by
        simp [BT.buttonStep, BT.down, hdeb2, hl, BT.PRESSED_FLAG,
          BT.DOUBLE_CLICKED_FLAG, BT.LONG_RELEASED_FLAG]
        all_goals decide
      rw [hstep2]
      exact ⟨(by decide : (((24:Nat) &&& BT.PRESSED_FLAG) != 0) = false),
        ⟨fun _ => hl, fun _ => (by decide : (24:Nat) &&& BT.LONG_RELEASED_FLAG ≠ 0)⟩,
        ⟨fun h => absurd (by decide : (24:Nat) &&& BT.SHORT_RELEASED_FLAG = 0) h,
         fun h => absurd hl (by omega)⟩,
        fun hc => hc.2 (by decide : (24:Nat) &&& BT.SHORT_RELEASED_FLAG = 0)⟩
    · have hstep2 : BT.buttonStep
          { b with state := BT.PRESSED_FLAG ||| BT.DOUBLE_CLICKED_FLAG,
                   lastClickTime := t, lastChangeTime := t } false tp =
          { b with state := 20, lastClickTime := t, lastChangeTime := tp } := by
        simp [BT.buttonStep, BT.down, hdeb2, hl, BT.PRESSED_FLAG,
          BT.DOUBLE_CLICKED_FLAG, BT.SHORT_RELEASED_FLAG]
        all_goals decide
      rw [hstep2]
      exact ⟨(by decide : (((20:Nat) &&& BT.PRESSED_FLAG) != 0) = false),
        ⟨fun h => absurd (by decide : (20:Nat) &&& BT.LONG_RELEASED_FLAG = 0) h,
         fun h => absurd h hl⟩,
        ⟨fun _ => by omega, fun _ => (by decide : (20:Nat) &&& BT.SHORT_RELEASED_FLAG ≠ 0)⟩,
        fun hc => hc.1 (by decide : (20:Nat) &&& BT.LONG_RELEASED_FLAG = 0)⟩

/-- Witness for `C4_long_short_boundary`: press accepted at `t = 40`,
release accepted at `tp = 1040`, holding time exactly
`LONG_RELEASE_DELAY`. -/
theorem C4_long_short_boundary_witness :
    BT.down (BT.buttonStep (BT.buttonStep ⟨2, 0, 0, 0⟩ true 40) false 1040) = false
    ∧ ((BT.buttonStep (BT.buttonStep ⟨2, 0, 0, 0⟩ true 40) false 1040).state
          &&& BT.LONG_RELEASED_FLAG ≠ 0
        ↔ BT.sub32 1040 40 > BT.LONG_RELEASE_DELAY)
    ∧ ((BT.buttonStep (BT.buttonStep ⟨2, 0, 0, 0⟩ true 40) false 1040).state
          &&& BT.SHORT_RELEASED_FLAG ≠ 0
        ↔ BT.sub32 1040 40 ≤ BT.LONG_RELEASE_DELAY)
    ∧ ¬((BT.buttonStep (BT.buttonStep ⟨2, 0, 0, 0⟩ true 40) false 1040).state
          &&& BT.LONG_RELEASED_FLAG ≠ 0
        ∧ (BT.buttonStep (BT.buttonStep ⟨2, 0, 0, 0⟩ true 40) false 1040).state
          &&& BT.SHORT_RELEASED_FLAG ≠ 0) :=
  C4_long_short_boundary ⟨2, 0, 0, 0⟩ 40 1040 (by decide) (by decide) (by decide)

/-! ## Claim C5 -/

/-- Claim C5: for every valid button index, each read-and-clear accessor
(`clicked` / `shortReleased` / `longReleased` / `doubleClicked` — the
spec's `take*` family) returns the pre-call value of its own flag and
clears exactly that flag: a second call with no intervening producer
update returns `false`, and after the call every other flag of the same
button and the confirmed (pressed) state read exactly as before. -/
theorem C5_take_read_and_clear (bs : List BT.Button) (i : Nat) (b : BT.Button)
    (hb : bs.get? i = some b) (hstate : b.state < 256) :
    (BT.clicked bs i).1 = (b.state &&& BT.CLICKED_FLAG != 0)
    ∧ (BT.clicked (BT.clicked bs i).2 i).1 = false
    ∧ (BT.shortReleased (BT.clicked bs i).2 i).1 = (BT.shortReleased bs i).1
    ∧ (BT.longReleased (BT.clicked bs i).2 i).1 = (BT.longReleased bs i).1
    ∧ (BT.doubleClicked (BT.clicked bs i).2 i).1 = (BT.doubleClicked bs i).1
    ∧ BT.downAt (BT.clicked bs i).2 i = BT.downAt bs i
    ∧ (BT.shortReleased bs i).1 = (b.state &&& BT.SHORT_RELEASED_FLAG != 0)
    ∧ (BT.shortReleased (BT.shortReleased bs i).2 i).1 = false
    ∧ (BT.clicked (BT.shortReleased bs i).2 i).1 = (BT.clicked bs i).1
    ∧ (BT.longReleased (BT.shortReleased bs i).2 i).1 = (BT.longReleased bs i).1
    ∧ (BT.doubleClicked (BT.shortReleased bs i).2 i).1 = (BT.doubleClicked bs i).1
    ∧ BT.downAt (BT.shortReleased bs i).2 i = BT.downAt bs i
    ∧ (BT.longReleased bs i).1 = (b.state &&& BT.LONG_RELEASED_FLAG != 0)
    ∧ (BT.longReleased (BT.longReleased bs i).2 i).1 = false
    ∧ (BT.clicked (BT.longReleased bs i).2 i).1 = (BT.clicked bs i).1
    ∧ (BT.shortReleased (BT.longReleased bs i).2 i).1 = (BT.shortReleased bs i).1
    ∧ (BT.doubleClicked (BT.longReleased bs i).2 i).1 = (BT.doubleClicked bs i).1
    ∧ BT.downAt (BT.longReleased bs i).2 i = BT.downAt bs i
    ∧ (BT.doubleClicked bs i).1 = (b.state &&& BT.DOUBLE_CLICKED_FLAG != 0)
    ∧ (BT.doubleClicked (BT.doubleClicked bs i).2 i).1 = false
    ∧ (BT.clicked (BT.doubleClicked bs i).2 i).1 = (BT.clicked bs i).1
    ∧ (BT.shortReleased (BT.doubleClicked bs i).2 i).1 = (BT.shortReleased bs i).1
    ∧ (BT.longReleased (BT.doubleClicked bs i).2 i).1 = (BT.longReleased bs i).1
    ∧ BT.downAt (BT.doubleClicked bs i).2 i = BT.downAt bs i := by
  have hb2 : ∀ st : Nat, (bs.set i { b with state := st }).get? i
      = some { b with state := st } :=
    fun st => BT.get?_set_self bs i _ b hb
  have hcl : BT.clicked bs i = ((b.state &&& BT.CLICKED_FLAG != 0),
      bs.set i { b with state := b.state &&& (255 ^^^ BT.CLICKED_FLAG) }) := by
    unfold BT.clicked
    rw [hb]
  have hsr : BT.shortReleased bs i = ((b.state &&& BT.SHORT_RELEASED_FLAG != 0),
      bs.set i { b with state := b.state &&& (255 ^^^ BT.SHORT_RELEASED_FLAG) }) := by
    unfold BT.shortReleased
    rw [hb]
  have hlr : BT.longReleased bs i = ((b.state &&& BT.LONG_RELEASED_FLAG != 0),
      bs.set i { b with state := b.state &&& (255 ^^^ BT.LONG_RELEASED_FLAG) }) := by
    unfold BT.longReleased
    rw [hb]
  have hdc : BT.doubleClicked bs i = ((b.state &&& BT.DOUBLE_CLICKED_FLAG != 0),
      bs.set i { b with state := b.state &&& (255 ^^^ BT.DOUBLE_CLICKED_FLAG) }) := by
    unfold BT.doubleClicked
    rw [hb]
  have hcl1 : ∀ st : Nat, (BT.clicked (bs.set i { b with state := st }) i).1
      = (st &&& BT.CLICKED_FLAG != 0) := by
    intro st; unfold BT.clicked; rw [hb2 st]
  have hsr1 : ∀ st : Nat, (BT.shortReleased (bs.set i { b with state := st }) i).1
      = (st &&& BT.SHORT_RELEASED_FLAG != 0) := by
    intro st; unfold BT.shortReleased; rw [hb2 st]
  have hlr1 : ∀ st : Nat, (BT.longReleased (bs.set i { b with state := st }) i).1
      = (st &&& BT.LONG_RELEASED_FLAG != 0) := by
    intro st; unfold BT.longReleased; rw [hb2 st]
  have hdc1 : ∀ st : Nat, (BT.doubleClicked (bs.set i { b with state := st }) i).1
      = (st &&& BT.DOUBLE_CLICKED_FLAG != 0) := by
    intro st; unfold BT.doubleClicked; rw [hb2 st]
  have hdn0 : BT.downAt bs i = (b.state &&& BT.PRESSED_FLAG != 0) := by
    unfold BT.downAt; rw [hb]; rfl
  have hdn1 : ∀ st : Nat, BT.downAt (bs.set i { b with state := st }) i
      = (st &&& BT.PRESSED_FLAG != 0) := by
    intro st; unfold BT.downAt; rw [hb2 st]; rfl
  obtain ⟨f1, f2, f3, f4, f5, g1, g2, g3, g4, g5, k1, k2, k3, k4, k5,
    l1, l2, l3, l4, l5⟩ := BT.takeByteFacts b.state hstate
  refine ⟨by rw [hcl], ?_, ?_, ?_, ?_, ?_,
    by rw [hsr], ?_, ?_, ?_, ?_, ?_,
    by rw [hlr], ?_, ?_, ?_, ?_, ?_,
    by rw [hdc], ?_, ?_, ?_, ?_, ?_⟩
  · rw [hcl]; exact (hcl1 _).trans f1
  · rw [hcl, hsr]; exact (hsr1 _).trans f2
  · rw [hcl, hlr]; exact (hlr1 _).trans f3
  · rw [hcl, hdc]; exact (hdc1 _).trans f4
  · rw [hcl]; exact ((hdn1 _).trans f5).trans hdn0.symm
  · rw [hsr]; exact (hsr1 _).trans g1
  · rw [hsr, hcl]; exact (hcl1 _).trans g2
  · rw [hsr, hlr]; exact (hlr1 _).trans g3
  · rw [hsr, hdc]; exact (hdc1 _).trans g4
  · rw [hsr]; exact ((hdn1 _).trans g5).trans hdn0.symm
  · rw [hlr]; exact (hlr1 _).trans k1
  · rw [hlr, hcl]; exact (hcl1 _).trans k2
  · rw [hlr, hsr]; exact (hsr1 _).trans k3
  · rw [hlr, hdc]; exact (hdc1 _).trans k4
  · rw [hlr]; exact ((hdn1 _).trans k5).trans hdn0.symm
  · rw [hdc]; exact (hdc1 _).trans l1
  · rw [hdc, hcl]; exact (hcl1 _).trans l2
  · rw [hdc, hsr]; exact (hsr1 _).trans l3
  · rw [hdc, hlr]; exact (hlr1 _).trans l4
  · rw [hdc]; exact ((hdn1 _).trans l5).trans hdn0.symm

/-- Witness for `C5_take_read_and_clear` at the one-entry array
`sampleButtons` (entry `sampleButton`, all flags set). -/
theorem C5_take_read_and_clear_witness :
    (BT.clicked BT.sampleButtons 0).1
        = (BT.sampleButton.state &&& BT.CLICKED_FLAG != 0)
    ∧ (BT.clicked (BT.clicked BT.sampleButtons 0).2 0).1 = false
    ∧ (BT.shortReleased (BT.clicked BT.sampleButtons 0).2 0).1
        = (BT.shortReleased BT.sampleButtons 0).1
    ∧ (BT.longReleased (BT.clicked BT.sampleButtons 0).2 0).1
        = (BT.longReleased BT.sampleButtons 0).1
    ∧ (BT.doubleClicked (BT.clicked BT.sampleButtons 0).2 0).1
        = (BT.doubleClicked BT.sampleButtons 0).1
    ∧ BT.downAt (BT.clicked BT.sampleButtons 0).2 0 = BT.downAt BT.sampleButtons 0
    ∧ (BT.shortReleased BT.sampleButtons 0).1
        = (BT.sampleButton.state &&& BT.SHORT_RELEASED_FLAG != 0)
    ∧ (BT.shortReleased (BT.shortReleased BT.sampleButtons 0).2 0).1 = false
    ∧ (BT.clicked (BT.shortReleased BT.sampleButtons 0).2 0).1
        = (BT.clicked BT.sampleButtons 0).1
    ∧ (BT.longReleased (BT.shortReleased BT.sampleButtons 0).2 0).1
        = (BT.longReleased BT.sampleButtons 0).1
    ∧ (BT.doubleClicked (BT.shortReleased BT.sampleButtons 0).2 0).1
        = (BT.doubleClicked BT.sampleButtons 0).1
    ∧ BT.downAt (BT.shortReleased BT.sampleButtons 0).2 0
        = BT.downAt BT.sampleButtons 0
    ∧ (BT.longReleased BT.sampleButtons 0).1
        = (BT.sampleButton.state &&& BT.LONG_RELEASED_FLAG != 0)
    ∧ (BT.longReleased (BT.longReleased BT.sampleButtons 0).2 0).1 = false
    ∧ (BT.clicked (BT.longReleased BT.sampleButtons 0).2 0).1
        = (BT.clicked BT.sampleButtons 0).1
    ∧ (BT.shortReleased (BT.longReleased BT.sampleButtons 0).2 0).1
        = (BT.shortReleased BT.sampleButtons 0).1
    ∧ (BT.doubleClicked (BT.longReleased BT.sampleButtons 0).2 0).1
        = (BT.doubleClicked BT.sampleButtons 0).1
    ∧ BT.downAt (BT.longReleased BT.sampleButtons 0).2 0
        = BT.downAt BT.sampleButtons 0
    ∧ (BT.doubleClicked BT.sampleButtons 0).1
        = (BT.sampleButton.state &&& BT.DOUBLE_CLICKED_FLAG != 0)
    ∧ (BT.doubleClicked (BT.doubleClicked BT.sampleButtons 0).2 0).1 = false
    ∧ (BT.clicked (BT.doubleClicked BT.sampleButtons 0).2 0).1
        = (BT.clicked BT.sampleButtons 0).1
    ∧ (BT.shortReleased (BT.doubleClicked BT.sampleButtons 0).2 0).1
        = (BT.shortReleased BT.sampleButtons 0).1
    ∧ (BT.longReleased (BT.doubleClicked BT.sampleButtons 0).2 0).1
        = (BT.longReleased BT.sampleButtons 0).1
    ∧ BT.downAt (BT.doubleClicked BT.sampleButtons 0).2 0
        = BT.downAt BT.sampleButtons 0 :=
  C5_take_read_and_clear BT.sampleButtons 0 BT.sampleButton (by decide) (by decide)

/-! ## Claim C6 -/

/-- Claim C6: after every successful `begin` with a non-null pin array —
including a `begin` issued while already begun, which restarts cleanly —
every entry of the `_buttons` array holds its assigned pin, a state byte
seeded from a fresh `digitalRead` sample (pressed exactly when the input
reads LOW), no event flags, and `lastChangeTime = lastClickTime = now`;
consequently a `button_ISR` pass at any later time with unchanged raw
levels alters nothing — no spurious event arises purely from the
restart. -/
theorem C6_begin_reseeds (r : BT.Registry) (env : BT.Env) (pins : Nat → Nat)
    (i now2 : Nat) (hi : i < (BT.begin (some pins) env r).2.buttons.length) :
    (BT.begin (some pins) env r).1 = true
    ∧ (BT.begin (some pins) env r).2.buttons.get? i =
        some ⟨pins i,
          if env.digitalRead (pins i) then BT.CLEAR_FLAGS else BT.PRESSED_FLAG,
          env.millis, env.millis⟩
    ∧ BT.downAt (BT.begin (some pins) env r).2.buttons i
        = !env.digitalRead (pins i)
    ∧ BT.button_ISR (BT.begin (some pins) env r).2.buttons env.digitalRead now2
        = (BT.begin (some pins) env r).2.buttons := by
  have hbuttons : (BT.begin (some pins) env r).2.buttons =
      (List.range (if r.begun then BT.stop r else r).buttons.length).map
        (fun j => (⟨pins j,
          if env.digitalRead (pins j) then BT.CLEAR_FLAGS else BT.PRESSED_FLAG,
          env.millis, env.millis⟩ : BT.Button)) := rfl
  have hi2 : i < (if r.begun then BT.stop r else r).buttons.length := by
    have hi3 := hi
    rw [hbuttons] at hi3
    simpa using hi3
  have h2 : (BT.begin (some pins) env r).2.buttons.get? i =
      some ⟨pins i,
        if env.digitalRead (pins i) then BT.CLEAR_FLAGS else BT.PRESSED_FLAG,
        env.millis, env.millis⟩ := by
    rw [hbuttons]
    simp [List.get?_eq_getElem?, List.getElem?_map, List.getElem?_range, hi2]
  have hfix : ∀ e : BT.Button,
      e.state = (if env.digitalRead e.pin then BT.CLEAR_FLAGS else BT.PRESSED_FLAG) →
      BT.buttonStep e (!env.digitalRead e.pin) now2 = e := by
    intro e he
    cases hdr : env.digitalRead e.pin with
    | false =>
        have hdn : BT.down e = true := by
          rw [BT.down, he, hdr]
          decide
        have hn := BT.buttonStep_noop e now2
        rw [hdn] at hn
        exact hn
    | true =>
        have hdn : BT.down e = false := by
          rw [BT.down, he, hdr]
          decide
        have hn := BT.buttonStep_noop e now2
        rw [hdn] at hn
        exact hn
  refine ⟨rfl, h2, ?_, ?_⟩
  · unfold BT.downAt
    rw [h2]
    cases hdr : env.digitalRead (pins i) <;>
      simp [BT.down, hdr, BT.CLEAR_FLAGS, BT.PRESSED_FLAG]
  · rw [hbuttons, BT.button_ISR, List.map_map]
    refine List.map_congr_left ?_
    intro a _
    exact hfix _ rfl

/-- Witness for `C6_begin_reseeds`: restart of an already-begun one-button
registry whose input reads HIGH (released), checked at index 0 and a
later dispatch at time 999. -/
theorem C6_begin_reseeds_witness :
    (BT.begin (some fun _ => 3) ⟨fun _ => true, 77, fun _ => true⟩
        ⟨BT.sampleButtons, true, [2]⟩).1 = true
    ∧ (BT.begin (some fun _ => 3) ⟨fun _ => true, 77, fun _ => true⟩
        ⟨BT.sampleButtons, true, [2]⟩).2.buttons.get? 0 =
        some ⟨3,
          if (⟨fun _ => true, 77, fun _ => true⟩ : BT.Env).digitalRead 3
            then BT.CLEAR_FLAGS else BT.PRESSED_FLAG,
          77, 77⟩
    ∧ BT.downAt (BT.begin (some fun _ => 3) ⟨fun _ => true, 77, fun _ => true⟩
        ⟨BT.sampleButtons, true, [2]⟩).2.buttons 0
        = !(⟨fun _ => true, 77, fun _ => true⟩ : BT.Env).digitalRead 3
    ∧ BT.button_ISR
        (BT.begin (some fun _ => 3) ⟨fun _ => true, 77, fun _ => true⟩
          ⟨BT.sampleButtons, true, [2]⟩).2.buttons
        (⟨fun _ => true, 77, fun _ => true⟩ : BT.Env).digitalRead 999
        = (BT.begin (some fun _ => 3) ⟨fun _ => true, 77, fun _ => true⟩
          ⟨BT.sampleButtons, true, [2]⟩).2.buttons :=
  C6_begin_reseeds ⟨BT.sampleButtons, true, [2]⟩ ⟨fun _ => true, 77, fun _ => true⟩
    (fun _ => 3) 0 999 (by decide)

/-! ## Claim C7 -/

/-- Claim C7 counterexample.  A platform environment that refuses to
bind an edge signal to every pin (`attachOk` constantly false): `begin`
with a non-null pin array still returns success, because
`attachInterrupt` returns `void` and the code never checks any binding
outcome — refuting the claim that binding refusal makes `begin` return
failure.  (Likewise there is no identity-count check: the C interface
receives only a raw pointer.) -/
theorem C7_counterexample :
    (⟨fun _ => true, 0, fun _ => false⟩ : BT.Env).attachOk 2 = false
    ∧ (BT.begin (some fun _ => 2) ⟨fun _ => true, 0, fun _ => false⟩
        ⟨[⟨0, 0, 0, 0⟩], false, []⟩).1 = true :=
  ⟨rfl, rfl⟩

/-- Claim C7 (amended): `begin` returns failure exactly when the pin
array pointer is null, and success in every other case: the identity
count cannot mismatch (the API receives a raw pointer and the count is
fixed by the template parameter), and a platform refusal to bind an edge
signal is invisible to the code (`attachInterrupt` returns `void`), so
it is never reported. -/
theorem C7_begin_result (buttonPins : Option (Nat → Nat)) (env : BT.Env)
    (r : BT.Registry) :
    (BT.begin buttonPins env r).1 = buttonPins.isSome := by
  cases buttonPins <;> rfl

/-! ## Claim C8 -/

/-- The wrapped `uint32_t` subtraction recovers the true elapsed time as
long as the elapsed time fits in 32 bits, regardless of wrap-around of
either timestamp. -/
lemma sub32_elapsed (t d : Nat) (hd : d < BT.U32) :
    BT.sub32 ((t + d) % BT.U32) (t % BT.U32) = d := by
  simp only [BT.sub32, BT.U32] at hd ⊢
  omega

/-- Claim C8 counterexample.  The claim quantifies over every
elapsed-time comparison of the debounce and classification path,
including the old variant (`buttonsTemplateOld.h`, lines 354-370) —
but that routine's debounce test is `millis() > lastChangeTime +
DEBOUNCE_DELAY`, not an unsigned subtraction, and it misclassifies
across a wrap: with `lastChangeTime = 2^32 - 200` and `millis() = 10`
after the wrap, the true elapsed time is 210 (> the 50-unit window) —
exactly the elapsed time of the accepted no-wrap control at
`lastChangeTime = 1000`, `millis() = 1210` — yet the pending transition
is rejected: `currentState` keeps its stale value and no `changeFlag`
is set. -/
theorem C8_counterexample :
    BT.sub32 10 (BT.U32 - 200) > BTOld.DEBOUNCE_DELAY
    ∧ (BTOld.buttonStep ⟨2, false, false, false, BT.U32 - 200⟩ true 10).currentState = false
    ∧ (BTOld.buttonStep ⟨2, false, false, false, BT.U32 - 200⟩ true 10).changeFlag = false
    ∧ BT.sub32 1210 1000 = BT.sub32 10 (BT.U32 - 200)
    ∧ (BTOld.buttonStep ⟨2, false, false, false, 1000⟩ true 1210).currentState = true
    ∧ (BTOld.buttonStep ⟨2, false, false, false, 1000⟩ true 1210).changeFlag = true := by
  decide

/-- Claim C8 (amended): in `buttonsTemplate.h`'s update routine every
elapsed-time comparison is computed with unsigned 32-bit subtraction
(`now - then` compared against the window), so it behaves exactly like
the ideal routine computed on true (unbounded) timestamps whenever each
elapsed time fits in 32 bits: the resulting state byte coincides and the
stored timestamps agree modulo 2^32 — debounce acceptance, double-click
and long/short classification all survive counter wrap-around.  This
does NOT extend to `buttonsTemplateOld.h`, whose debounce comparison is
the add-then-compare `millis() > lastChangeTime + DEBOUNCE_DELAY` and
misclassifies across a wrap (see the counterexample above). -/
theorem C8_wrap_tolerance (b : BT.Button) (readState : Bool) (tc tk tn : Nat)
    (h1 : tc ≤ tn) (h2 : tk ≤ tn) (h3 : tn - tc < BT.U32) (h4 : tn - tk < BT.U32) :
    (BT.buttonStep { b with lastChangeTime := tc % BT.U32, lastClickTime := tk % BT.U32 }
        readState (tn % BT.U32)).state
      = (BT.buttonStepExact { b with lastChangeTime := tc, lastClickTime := tk }
        readState tn).state
    ∧ (BT.buttonStep { b with lastChangeTime := tc % BT.U32, lastClickTime := tk % BT.U32 }
        readState (tn % BT.U32)).lastChangeTime
      = (BT.buttonStepExact { b with lastChangeTime := tc, lastClickTime := tk }
        readState tn).lastChangeTime % BT.U32
    ∧ (BT.buttonStep { b with lastChangeTime := tc % BT.U32, lastClickTime := tk % BT.U32 }
        readState (tn % BT.U32)).lastClickTime
      = (BT.buttonStepExact { b with lastChangeTime := tc, lastClickTime := tk }
        readState tn).lastClickTime % BT.U32
    ∧ BT.down (BT.buttonStep { b with lastChangeTime := tc % BT.U32, lastClickTime := tk % BT.U32 }
        readState (tn % BT.U32))
      = BT.down (BT.buttonStepExact { b with lastChangeTime := tc, lastClickTime := tk }
        readState tn) := by
  have e1 : BT.sub32 (tn % BT.U32) (tc % BT.U32) = tn - tc := by
    have h := sub32_elapsed tc (tn - tc) h3
    rwa [Nat.add_sub_cancel' h1] at h
  have e2 : BT.sub32 (tn % BT.U32) (tk % BT.U32) = tn - tk := by
    have h := sub32_elapsed tk (tn - tk) h4
    rwa [Nat.add_sub_cancel' h2] at h
  simp only [BT.buttonStep, BT.buttonStepExact, BT.down, e1, e2]
  split_ifs <;> simp

/-- Witness for `C8_wrap_tolerance` across an actual wrap: the true
times are `tc = 2^32 - 10`, `tk = 2^32 - 300`, `tn = 2^32 + 40`, so the
stored `now` (40) is numerically smaller than both stored timestamps. -/
theorem C8_wrap_tolerance_witness :
    (BT.buttonStep (⟨2, 0, 4294967286 % BT.U32, 4294966996 % BT.U32⟩ : BT.Button) true (4294967336 % BT.U32)).state
      = (BT.buttonStepExact (⟨2, 0, 4294967286, 4294966996⟩ : BT.Button) true 4294967336).state
    ∧ (BT.buttonStep (⟨2, 0, 4294967286 % BT.U32, 4294966996 % BT.U32⟩ : BT.Button) true (4294967336 % BT.U32)).lastChangeTime
      = (BT.buttonStepExact (⟨2, 0, 4294967286, 4294966996⟩ : BT.Button) true 4294967336).lastChangeTime % BT.U32
    ∧ (BT.buttonStep (⟨2, 0, 4294967286 % BT.U32, 4294966996 % BT.U32⟩ : BT.Button) true (4294967336 % BT.U32)).lastClickTime
      = (BT.buttonStepExact (⟨2, 0, 4294967286, 4294966996⟩ : BT.Button) true 4294967336).lastClickTime % BT.U32
    ∧ BT.down (BT.buttonStep (⟨2, 0, 4294967286 % BT.U32, 4294966996 % BT.U32⟩ : BT.Button) true (4294967336 % BT.U32))
      = BT.down (BT.buttonStepExact (⟨2, 0, 4294967286, 4294966996⟩ : BT.Button) true 4294967336) :=
  C8_wrap_tolerance ⟨2, 0, 0, 0⟩ true 4294967286 4294966996 4294967336
    (by decide) (by decide) (by decide) (by decide)

/-- Claim C9: `stop` is idempotent, is a no-op when the registry has not
been begun, never touches the `_buttons` array (so pins, flag bytes and
timestamps — in particular unconsumed gesture flags — survive), and
leaves the registry not begun. -/
theorem C9_stop_frame (r : BT.Registry) :
    BT.stop (BT.stop r) = BT.stop r
    ∧ (BT.stop r).buttons = r.buttons
    ∧ (BT.stop r).begun = false
    ∧ (r.begun = false → BT.stop r = r) := by
  by_cases hb : r.begun <;> simp [BT.stop, hb]

/-- Witness for `C9_stop_frame` at a concrete begun registry with one
button holding an unconsumed flag byte. -/
theorem C9_stop_frame_witness :
    BT.stop (BT.stop ⟨[⟨2, 6, 40, 40⟩], true, [2]⟩) =
        BT.stop ⟨[⟨2, 6, 40, 40⟩], true, [2]⟩
    ∧ (BT.stop ⟨[⟨2, 6, 40, 40⟩], true, [2]⟩).buttons = [⟨2, 6, 40, 40⟩]
    ∧ (BT.stop ⟨[⟨2, 6, 40, 40⟩], true, [2]⟩).begun = false
    ∧ ((⟨[⟨2, 6, 40, 40⟩], true, [2]⟩ : BT.Registry).begun = false →
        BT.stop ⟨[⟨2, 6, 40, 40⟩], true, [2]⟩ = ⟨[⟨2, 6, 40, 40⟩], true, [2]⟩) :=
  C9_stop_frame ⟨[⟨2, 6, 40, 40⟩], true, [2]⟩

/-! ## Claim C10 -/

set_option maxRecDepth 8000 in
/-- Byte-level facts behind `ButtonSingle`: the C logical AND `state &&
FLAG` collapses to `state != 0` for every nonzero flag constant, while
the clear operations `state &= ~FLAG` still clear exactly one bit. -/
lemma singleByteFacts :
    ∀ s, s < 256 →
      BS.cAnd s BS.CLICKED_FLAG = (s != 0)
      ∧ BS.cAnd s BS.RELEASED_FLAG = (s != 0)
      ∧ BS.cAnd s BS.LONG_CLICKED_FLAG = (s != 0)
      ∧ BS.cAnd s BS.DOUBLE_CLICKED_FLAG = (s != 0)
      ∧ BS.cAnd s BS.PRESSED_FLAG = (s != 0)
      ∧ (s &&& (255 ^^^ BS.CLICKED_FLAG)) &&& BS.CLICKED_FLAG = 0
      ∧ (s &&& (255 ^^^ BS.CLICKED_FLAG)) &&&
          (BS.PRESSED_FLAG ||| BS.RELEASED_FLAG ||| BS.LONG_CLICKED_FLAG ||| BS.DOUBLE_CLICKED_FLAG)
        = s &&& (BS.PRESSED_FLAG ||| BS.RELEASED_FLAG ||| BS.LONG_CLICKED_FLAG ||| BS.DOUBLE_CLICKED_FLAG)
      ∧ (s &&& (255 ^^^ BS.RELEASED_FLAG)) &&& BS.RELEASED_FLAG = 0
      ∧ (s &&& (255 ^^^ BS.RELEASED_FLAG)) &&&
          (BS.PRESSED_FLAG ||| BS.CLICKED_FLAG ||| BS.LONG_CLICKED_FLAG ||| BS.DOUBLE_CLICKED_FLAG)
        = s &&& (BS.PRESSED_FLAG ||| BS.CLICKED_FLAG ||| BS.LONG_CLICKED_FLAG ||| BS.DOUBLE_CLICKED_FLAG)
      ∧ (s &&& (255 ^^^ BS.LONG_CLICKED_FLAG)) &&& BS.LONG_CLICKED_FLAG = 0
      ∧ (s &&& (255 ^^^ BS.LONG_CLICKED_FLAG)) &&&
          (BS.PRESSED_FLAG ||| BS.CLICKED_FLAG ||| BS.RELEASED_FLAG ||| BS.DOUBLE_CLICKED_FLAG)
        = s &&& (BS.PRESSED_FLAG ||| BS.CLICKED_FLAG ||| BS.RELEASED_FLAG ||| BS.DOUBLE_CLICKED_FLAG)
      ∧ (s &&& (255 ^^^ BS.DOUBLE_CLICKED_FLAG)) &&& BS.DOUBLE_CLICKED_FLAG = 0
      ∧ (s &&& (255 ^^^ BS.DOUBLE_CLICKED_FLAG)) &&&
          (BS.PRESSED_FLAG ||| BS.CLICKED_FLAG ||| BS.RELEASED_FLAG ||| BS.LONG_CLICKED_FLAG)
        = s &&& (BS.PRESSED_FLAG ||| BS.CLICKED_FLAG ||| BS.RELEASED_FLAG ||| BS.LONG_CLICKED_FLAG) := by
  decide

/-- Claim C10: in `ButtonSingle` every flag accessor — `clicked`,
`released`, `longClicked`, `doubleClicked`, and `down` — returns true if
and only if the whole state byte is nonzero (the source writes the C
logical `state && FLAG` instead of the bitwise `state & FLAG`), while
each take-style accessor still clears only its own bit; likewise
`button_Handler` compares the raw sample against `state != 0` rather
than against the pressed bit, so whenever the raw sample agrees with
`state != 0` the handler is a no-op — in particular a press arriving
while only the `clicked` bit is set (state = 2, pressed bit clear) is
ignored. -/
theorem C10_single_state_nonzero (b : BS.ButtonSingle) (dr : Bool) (now : Nat)
    (hstate : b.state < 256) :
    (BS.clicked b).1 = (b.state != 0)
    ∧ (BS.released b).1 = (b.state != 0)
    ∧ (BS.longClicked b).1 = (b.state != 0)
    ∧ (BS.doubleClicked b).1 = (b.state != 0)
    ∧ BS.down b = (b.state != 0)
    ∧ (BS.clicked b).2.state &&& BS.CLICKED_FLAG = 0
    ∧ (BS.clicked b).2.state &&&
        (BS.PRESSED_FLAG ||| BS.RELEASED_FLAG ||| BS.LONG_CLICKED_FLAG ||| BS.DOUBLE_CLICKED_FLAG)
      = b.state &&& (BS.PRESSED_FLAG ||| BS.RELEASED_FLAG ||| BS.LONG_CLICKED_FLAG ||| BS.DOUBLE_CLICKED_FLAG)
    ∧ (BS.released b).2.state &&& BS.RELEASED_FLAG = 0
    ∧ (BS.released b).2.state &&&
        (BS.PRESSED_FLAG ||| BS.CLICKED_FLAG ||| BS.LONG_CLICKED_FLAG ||| BS.DOUBLE_CLICKED_FLAG)
      = b.state &&& (BS.PRESSED_FLAG ||| BS.CLICKED_FLAG ||| BS.LONG_CLICKED_FLAG ||| BS.DOUBLE_CLICKED_FLAG)
    ∧ (BS.longClicked b).2.state &&& BS.LONG_CLICKED_FLAG = 0
    ∧ (BS.longClicked b).2.state &&&
        (BS.PRESSED_FLAG ||| BS.CLICKED_FLAG ||| BS.RELEASED_FLAG ||| BS.DOUBLE_CLICKED_FLAG)
      = b.state &&& (BS.PRESSED_FLAG ||| BS.CLICKED_FLAG ||| BS.RELEASED_FLAG ||| BS.DOUBLE_CLICKED_FLAG)
    ∧ (BS.doubleClicked b).2.state &&& BS.DOUBLE_CLICKED_FLAG = 0
    ∧ (BS.doubleClicked b).2.state &&&
        (BS.PRESSED_FLAG ||| BS.CLICKED_FLAG ||| BS.RELEASED_FLAG ||| BS.LONG_CLICKED_FLAG)
      = b.state &&& (BS.PRESSED_FLAG ||| BS.CLICKED_FLAG ||| BS.RELEASED_FLAG ||| BS.LONG_CLICKED_FLAG)
    ∧ ((!dr) = (b.state != 0) → BS.button_Handler b dr now = b)
    ∧ BS.button_Handler ⟨5, 2, 0, 0⟩ false now = ⟨5, 2, 0, 0⟩ := by
  obtain ⟨a1, a2, a3, a4, a5, c1, p1, c2, p2, c3, p3, c4, p4⟩ :=
    singleByteFacts b.state hstate
  refine ⟨a1, a2, a3, a4, a5, c1, p1, c2, p2, c3, p3, c4, p4, ?_, ?_⟩
  · intro hg
    have hg2 : (!dr) = BS.cAnd b.state BS.PRESSED_FLAG := hg.trans a5.symm
    simp [BS.button_Handler, hg2]
  · show BS.button_Handler ⟨5, 2, 0, 0⟩ false now = ⟨5, 2, 0, 0⟩
    simp [BS.button_Handler, BS.cAnd, BS.PRESSED_FLAG]

/-- Witness for `C10_single_state_nonzero` at the record `⟨9, 21, 3, 4⟩`
(state 21: pressed, released and double-clicked bits set) with a raw
sample `dr = false` (pressed) at time 123. -/
theorem C10_single_state_nonzero_witness :
    (BS.clicked ⟨9, 21, 3, 4⟩).1 = ((21 : Nat) != 0)
    ∧ (BS.released ⟨9, 21, 3, 4⟩).1 = ((21 : Nat) != 0)
    ∧ (BS.longClicked ⟨9, 21, 3, 4⟩).1 = ((21 : Nat) != 0)
    ∧ (BS.doubleClicked ⟨9, 21, 3, 4⟩).1 = ((21 : Nat) != 0)
    ∧ BS.down ⟨9, 21, 3, 4⟩ = ((21 : Nat) != 0)
    ∧ (BS.clicked ⟨9, 21, 3, 4⟩).2.state &&& BS.CLICKED_FLAG = 0
    ∧ (BS.clicked ⟨9, 21, 3, 4⟩).2.state &&&
        (BS.PRESSED_FLAG ||| BS.RELEASED_FLAG ||| BS.LONG_CLICKED_FLAG ||| BS.DOUBLE_CLICKED_FLAG)
      = (21 : Nat) &&& (BS.PRESSED_FLAG ||| BS.RELEASED_FLAG ||| BS.LONG_CLICKED_FLAG ||| BS.DOUBLE_CLICKED_FLAG)
    ∧ (BS.released ⟨9, 21, 3, 4⟩).2.state &&& BS.RELEASED_FLAG = 0
    ∧ (BS.released ⟨9, 21, 3, 4⟩).2.state &&&
        (BS.PRESSED_FLAG ||| BS.CLICKED_FLAG ||| BS.LONG_CLICKED_FLAG ||| BS.DOUBLE_CLICKED_FLAG)
      = (21 : Nat) &&& (BS.PRESSED_FLAG ||| BS.CLICKED_FLAG ||| BS.LONG_CLICKED_FLAG ||| BS.DOUBLE_CLICKED_FLAG)
    ∧ (BS.longClicked ⟨9, 21, 3, 4⟩).2.state &&& BS.LONG_CLICKED_FLAG = 0
    ∧ (BS.longClicked ⟨9, 21, 3, 4⟩).2.state &&&
        (BS.PRESSED_FLAG ||| BS.CLICKED_FLAG ||| BS.RELEASED_FLAG ||| BS.DOUBLE_CLICKED_FLAG)
      = (21 : Nat) &&& (BS.PRESSED_FLAG ||| BS.CLICKED_FLAG ||| BS.RELEASED_FLAG ||| BS.DOUBLE_CLICKED_FLAG)
    ∧ (BS.doubleClicked ⟨9, 21, 3, 4⟩).2.state &&& BS.DOUBLE_CLICKED_FLAG = 0
    ∧ (BS.doubleClicked ⟨9, 21, 3, 4⟩).2.state &&&
        (BS.PRESSED_FLAG ||| BS.CLICKED_FLAG ||| BS.RELEASED_FLAG ||| BS.LONG_CLICKED_FLAG)
      = (21 : Nat) &&& (BS.PRESSED_FLAG ||| BS.CLICKED_FLAG ||| BS.RELEASED_FLAG ||| BS.LONG_CLICKED_FLAG)
    ∧ ((!false) = ((21 : Nat) != 0) → BS.button_Handler ⟨9, 21, 3, 4⟩ false 123 = ⟨9, 21, 3, 4⟩)
    ∧ BS.button_Handler ⟨5, 2, 0, 0⟩ false 123 = ⟨5, 2, 0, 0⟩ :=
  C10_single_state_nonzero ⟨9, 21, 3, 4⟩ false 123 (by decide)
